import Mathlib

/-!
Verification of the PyTorch GMM benchmark adapter (`src/tools/pytorch/gmm.py`
of diku-dk/gradbench), a thin wrapper around an external GMM objective and
an automatic-differentiation framework.

Numeric values are modelled over `ℚ` (an idealized, executable stand-in for
the floating-point numbers of the source).  Tensors carry their plain nested
value together with the gradient-tracking flag.  The Python instance
attributes `inputs`, `params`, `objective`, `gradient` of a `PyTorchGMM`
object do not exist before `prepare` runs, so they are modelled as `Option`
fields; reading an absent attribute is the uninitialized-state
(`AttributeError`) failure.  The external collaborators that live in this
repository but outside `src/` (`gmm_objective`, `utils.to_torch_tensors`,
`utils.torch_jacobian`, the `wrap` marshalling decorator, and the
`GMMInput`/`Wishart`/`GMMOutput` data holders) are modelled from the
specification, as indicated in their doc comments.
-/

/-- A plain nested numeric value: a Python number, or a (possibly nested)
Python list of numbers.  This is the raw-record / `tolist` transport form. -/
inductive Val where
  | num : ℚ → Val
  | arr : List Val → Val
deriving Repr

mutual

/-- Flatten a nested value into its list of scalar entries (row-major,
matching the flattening order used by the tensor framework). -/
def Val.flatten : Val → List ℚ
  | .num q => [q]
  | .arr l => flattenList l
termination_by structural v => v

/-- Flatten each value of a list in order and concatenate the results. -/
def flattenList : List Val → List ℚ
  | [] => []
  | v :: vs => v.flatten ++ flattenList vs
termination_by structural l => l

end

/-- Total element count of a nested value. -/
def Val.numel (v : Val) : Nat := v.flatten.length

/-- A framework tensor: its numeric contents together with the
gradient-tracking (`requires_grad`) flag. -/
structure Tensor where
  val : Val
  grad : Bool
deriving Repr

/-- `tensor.tolist()`: conversion of a tensor back to a plain nested value. -/
def Tensor.tolist (t : Tensor) : Val := t.val

/-- `tensor.item()`: extract the single scalar of a one-element tensor;
fails (`none`) when the tensor does not hold exactly one element. -/
def Tensor.item (t : Tensor) : Option ℚ :=
  match t.val.flatten with
  | [q] => some q
  | _ => none

/-- `tensor.numpy()` on the 1-D tensors stored in `gradient`: the flat
array of scalar entries. -/
def Tensor.numpy (t : Tensor) : List ℚ := t.val.flatten

/-- The failures the adapter can surface: reading an instance attribute
that `prepare` has not set (Python `AttributeError`, the spec's
uninitialized-state error), evaluating a name the module never binds
(Python `NameError`), and `.item()` on a tensor that is not a single
element (Python `RuntimeError`). -/
inductive PyErr where
  | attributeError
  | nameError
  | runtimeError
deriving DecidableEq, Repr

/-- Modelled from the spec: the `Wishart` data holder (module `defs`, not
under `src/`) — the prior's `gamma` and `m` parameters, held as given. -/
structure Wishart where
  gamma : Val
  m : Val
deriving Repr

/-- Modelled from the spec: the `GMMInput` data holder (module `gmm_data`,
not under `src/`) — `alphas`, `means`, `icf`, `x` arrays and the `Wishart`
prior, held exactly as supplied, immutable once constructed. -/
structure GMMInput where
  alphas : Val
  means : Val
  icf : Val
  x : Val
  wishart : Wishart
deriving Repr

/-- Modelled from the spec: the `GMMOutput` data holder — a plain scalar
objective and a plain flat gradient array. -/
structure GMMOutput where
  objective : ℚ
  gradient : List ℚ
deriving Repr

/-- A raw mapping record with keys `alpha`, `means`, `icf`, `x`, `gamma`,
`m` (all keys present, as the free functions' contract requires). -/
structure RawRecord where
  alpha : Val
  means : Val
  icf : Val
  x : Val
  gamma : Val
  m : Val
deriving Repr

/-- Modelled from the spec: the external GMM objective routine as a pure
mathematical function.  `obj` is the scalar objective of
`(alphas, means, icf, x, gamma, m)`; `gradA`, `gradM`, `gradI` are its
gradients with respect to `alphas`, `means` and `icf` at that point, as
flat lists of partial derivatives (the automatic-differentiation
capability the framework supplies). -/
structure GMMFn where
  obj : Val → Val → Val → Val → Val → Val → ℚ
  gradA : Val → Val → Val → Val → Val → Val → List ℚ
  gradM : Val → Val → Val → Val → Val → Val → List ℚ
  gradI : Val → Val → Val → Val → Val → Val → List ℚ

/-- Modelled from the spec: `utils.to_torch_tensor` (not under `src/`)
converts a plain value into a framework tensor carrying the same numbers,
with gradient tracking switched on exactly when `grad_req` is true. -/
def to_torch_tensor (v : Val) (grad_req : Bool) : Tensor :=
  { val := v, grad := grad_req }

/-- Modelled from the spec: `utils.to_torch_tensors` (not under `src/`)
converts a triple of plain values into tensors, all with the same
`grad_req` flag (false when the caller omits it). -/
def to_torch_tensors (t : Val × Val × Val) (grad_req : Bool) :
    Tensor × Tensor × Tensor :=
  (to_torch_tensor t.1 grad_req, to_torch_tensor t.2.1 grad_req,
    to_torch_tensor t.2.2 grad_req)

/-- Modelled from the spec: `gmm_objective` (module `gmm_objective`, not
under `src/`) is a pure function of the six tensors returning the scalar
GMM log-likelihood objective as a single-element framework tensor. -/
def gmm_objective (F : GMMFn) (a me ic x ga mm : Tensor) : Tensor :=
  { val := Val.arr [Val.num (F.obj a.val me.val ic.val x.val ga.val mm.val)],
    grad := false }

/-- Modelled from the spec: `utils.torch_jacobian` (not under `src/`)
evaluates the objective together with its gradient with respect to the
differentiable inputs; the gradient is the flattened concatenation of the
per-input gradients, ordered `alphas`, then `means`, then `icf`, one
partial derivative per differentiable input element. -/
def torch_jacobian (F : GMMFn) (inputs params : Tensor × Tensor × Tensor) :
    Tensor × Tensor :=
  let a := inputs.1; let me := inputs.2.1; let ic := inputs.2.2
  let x := params.1; let ga := params.2.1; let mm := params.2.2
  let gr := F.gradA a.val me.val ic.val x.val ga.val mm.val
    ++ F.gradM a.val me.val ic.val x.val ga.val mm.val
    ++ F.gradI a.val me.val ic.val x.val ga.val mm.val
  (gmm_objective F a me ic x ga mm,
    { val := Val.arr (gr.map Val.num), grad := false })

/-- The mutable state of a `PyTorchGMM` adapter instance.  Each field is a
Python instance attribute that first exists once `prepare` assigns it, so
each is an `Option`. -/
structure GMMState where
  inputs : Option (Tensor × Tensor × Tensor)
  params : Option (Tensor × Tensor × Tensor)
  objective : Option Tensor
  gradient : Option Tensor
deriving Repr

/-- `PyTorchGMM()`: a freshly constructed adapter, no attribute set. -/
def initState : GMMState :=
  { inputs := none, params := none, objective := none, gradient := none }

/-- `PyTorchGMM.prepare`: converts `alphas`, `means`, `icf` to tensors with
gradient tracking, `x`, `gamma`, `m` to plain tensors, and resets
`objective` to `torch.zeros(1)` and `gradient` to `torch.empty(0)`. -/
def prepare (input : GMMInput) (_s : GMMState) : GMMState :=
  { inputs := some (to_torch_tensors (input.alphas, input.means, input.icf) true),
    params := some (to_torch_tensors
      (input.x, input.wishart.gamma, input.wishart.m) false),
    objective := some { val := Val.arr [Val.num 0], grad := false },
    gradient := some { val := Val.arr [], grad := false } }

/-- `PyTorchGMM.output`: its body is
`return GMMOutput(self.objective.item(), self.gradient.numpy())`, but the
source module never imports or defines the name `GMMOutput` (its import
from `gmm_data` binds only `GMMInput`), and Python resolves the callable
before evaluating the arguments, so every call fails with a `NameError`
before any attribute is read, regardless of the adapter's state. -/
def output (_s : GMMState) : Except PyErr (GMMOutput × GMMState) :=
  .error .nameError

/-- One iteration of the `calculate_objective` loop:
`self.objective = gmm_objective(*self.inputs, *self.params)`. -/
def calcObjectiveStep (F : GMMFn) (s : GMMState) : Except PyErr GMMState :=
  match s.inputs, s.params with
  | some (a, me, ic), some (x, ga, mm) =>
    .ok { s with objective := some (gmm_objective F a me ic x ga mm) }
  | _, _ => .error .attributeError

/-- `PyTorchGMM.calculate_objective(times)`: runs the loop body `times`
times in sequence (`for i in range(times)`). -/
def calculate_objective (F : GMMFn) : Nat → GMMState → Except PyErr GMMState
  | 0, s => .ok s
  | n + 1, s => (calcObjectiveStep F s).bind (calculate_objective F n)

/-- One iteration of the `calculate_jacobian` loop:
`self.objective, self.gradient = torch_jacobian(gmm_objective, self.inputs, self.params)`. -/
def calcJacobianStep (F : GMMFn) (s : GMMState) : Except PyErr GMMState :=
  match s.inputs, s.params with
  | some t, some p =>
    let r := torch_jacobian F t p
    .ok { s with objective := some r.1, gradient := some r.2 }
  | _, _ => .error .attributeError

/-- `PyTorchGMM.calculate_jacobian(times)`: runs the loop body `times`
times in sequence. -/
def calculate_jacobian (F : GMMFn) : Nat → GMMState → Except PyErr GMMState
  | 0, s => .ok s
  | n + 1, s => (calcJacobianStep F s).bind (calculate_jacobian F n)

/-- `prepare_input`: builds a `GMMInput` from the raw record, field by
field, with the `Wishart` prior made of `gamma` and `m`. -/
def prepare_input (input : RawRecord) : GMMInput :=
  { alphas := input.alpha, means := input.means, icf := input.icf,
    x := input.x, wishart := { gamma := input.gamma, m := input.m } }

/-- `calculate_jacobianGMM`, with the `wrap` marshalling (modelled from the
spec: `wrap(pre, post)` applies `pre` to the raw record before the body and
`post` to the body's result): fresh adapter, `prepare`, one Jacobian
evaluation, return `py.gradient.tolist()`. -/
def calculate_jacobianGMM (F : GMMFn) (input : RawRecord) : Except PyErr Val :=
  let py := initState
  let py := prepare (prepare_input input) py
  (calculate_jacobian F 1 py).bind fun py =>
    match py.gradient with
    | some g => .ok g.tolist
    | none => .error .attributeError

/-- `calculate_objectiveGMM`, with the `wrap` marshalling: fresh adapter,
`prepare`, one objective evaluation, return `py.objective.tolist()`. -/
def calculate_objectiveGMM (F : GMMFn) (input : RawRecord) : Except PyErr Val :=
  let py := initState
  let py := prepare (prepare_input input) py
  (calculate_objective F 1 py).bind fun py =>
    match py.objective with
    | some o => .ok o.tolist
    | none => .error .attributeError

/-- An adapter state on which `prepare` has run: both tensor attributes
are set. -/
def GMMState.Prepared (s : GMMState) : Prop :=
  s.inputs.isSome ∧ s.params.isSome

/-- A trivial concrete instantiation of the external objective routine,
used to evaluate the adapter on concrete inputs: objective constantly
zero, gradients one zero per input element. -/
def constF : GMMFn :=
  { obj := fun _ _ _ _ _ _ => 0,
    gradA := fun a _ _ _ _ _ => a.flatten.map (fun _ => 0),
    gradM := fun _ me _ _ _ _ => me.flatten.map (fun _ => 0),
    gradI := fun _ _ ic _ _ _ => ic.flatten.map (fun _ => 0) }

/-- The concrete raw record of the spec's round-trip and end-to-end
scenarios: `alpha=[0.5,0.5]`, `means=[[0,0],[1,1]]`, `icf=[[1,0],[1,0]]`,
`x=[[0.1,0.1]]`, `gamma=1.0`, `m=0`. -/
def r0 : RawRecord :=
  { alpha := Val.arr [Val.num (1/2), Val.num (1/2)],
    means := Val.arr [Val.arr [Val.num 0, Val.num 0],
      Val.arr [Val.num 1, Val.num 1]],
    icf := Val.arr [Val.arr [Val.num 1, Val.num 0],
      Val.arr [Val.num 1, Val.num 0]],
    x := Val.arr [Val.arr [Val.num (1/10), Val.num (1/10)]],
    gamma := Val.num 1,
    m := Val.num 0 }

/-! Helper lemmas shared by the claim theorems. -/

/-- Flattening a flat list of scalars wrapped as a `Val` array recovers the
list. -/
theorem flatten_map_num (l : List ℚ) :
    (Val.arr (l.map Val.num)).flatten = l := by
  induction l with
  | nil => rfl
  | cons q l ih => simpa [Val.flatten, flattenList] using ih

/-- The scalar result a single `calculate_objective` iteration stores. -/
def objResult (F : GMMFn) (t p : Tensor × Tensor × Tensor) : Tensor :=
  gmm_objective F t.1 t.2.1 t.2.2 p.1 p.2.1 p.2.2

/-- A `calculate_objective` loop iteration on a prepared state overwrites
exactly the `objective` field with the objective of the stored tensors. -/
theorem calcObjectiveStep_eq (F : GMMFn) (s : GMMState)
    (t p : Tensor × Tensor × Tensor)
    (hi : s.inputs = some t) (hp : s.params = some p) :
    calcObjectiveStep F s = .ok { s with objective := some (objResult F t p) } := by
  obtain ⟨a, me, ic⟩ := t
  obtain ⟨x, ga, mm⟩ := p
  simp only [calcObjectiveStep, hi, hp]
  rfl

/-- On a prepared state, `calculate_objective` with a positive iteration
count always lands in the same final state: the input state with its
`objective` field overwritten once. -/
theorem calc_obj_aux (F : GMMFn) (t p : Tensor × Tensor × Tensor) :
    ∀ (n : Nat) (s : GMMState), s.inputs = some t → s.params = some p →
      calculate_objective F (n + 1) s =
        .ok { s with objective := some (objResult F t p) } := by
  intro n
  induction n with
  | zero =>
    intro s hi hp
    show (calcObjectiveStep F s).bind (calculate_objective F 0) = _
    rw [calcObjectiveStep_eq F s t p hi hp]
    rfl
  | succ k ih =>
    intro s hi hp
    show (calcObjectiveStep F s).bind (calculate_objective F (k + 1)) = _
    rw [calcObjectiveStep_eq F s t p hi hp]
    have := ih { s with objective := some (objResult F t p) } hi hp
    rw [show ((Except.ok { s with objective := some (objResult F t p) } :
        Except PyErr GMMState).bind (calculate_objective F (k + 1)))
      = calculate_objective F (k + 1)
          { s with objective := some (objResult F t p) } from rfl, this]

/-- An unprepared `calculate_objective` loop iteration fails with the
uninitialized-state (`AttributeError`) failure. -/
theorem calcObjectiveStep_none (F : GMMFn) (s : GMMState)
    (h : s.inputs = none) : calcObjectiveStep F s = .error .attributeError := by
  unfold calcObjectiveStep
  rw [h]

/-- An unprepared `calculate_jacobian` loop iteration fails with the
uninitialized-state (`AttributeError`) failure. -/
theorem calcJacobianStep_none (F : GMMFn) (s : GMMState)
    (h : s.inputs = none) : calcJacobianStep F s = .error .attributeError := by
  unfold calcJacobianStep
  rw [h]

/-! Claim theorems. -/

/-- Claim C1 (code bug): the claim says that after `prepare`, `output()`
returns a `GMMOutput` snapshot and is a pure read, but the source module
never imports or defines the name `GMMOutput`, so every call — for every
adapter state, and in particular on the adapter just prepared from the
spec's concrete record — fails with a `NameError` before reading any
attribute and never returns a snapshot. -/
theorem output_raises_name_error (s : GMMState) :
    output s = .error .nameError ∧
    output (prepare (prepare_input r0) initState) = .error .nameError :=
  ⟨rfl, rfl⟩

/-- Claim C2: for every positive `times`, `calculate_objective(times)` and
`calculate_jacobian(times)` on an adapter on which `prepare` has never
been called (so the `inputs` attribute was never set) fail with the
uninitialized-state error, deterministically. -/
theorem evaluate_before_prepare_errors (F : GMMFn) (times : Nat)
    (s : GMMState) (h1 : 1 ≤ times) (h2 : s.inputs = none) :
    calculate_objective F times s = .error .attributeError ∧
    calculate_jacobian F times s = .error .attributeError := by
  obtain ⟨n, rfl⟩ : ∃ n, times = n + 1 := ⟨times - 1, by omega⟩
  constructor
  · show (calcObjectiveStep F s).bind (calculate_objective F n) = _
    rw [calcObjectiveStep_none F s h2]
    rfl
  · show (calcJacobianStep F s).bind (calculate_jacobian F n) = _
    rw [calcJacobianStep_none F s h2]
    rfl

/-- Witness for claim C2 on a freshly constructed adapter with one
iteration. -/
theorem evaluate_before_prepare_errors_witness :
    calculate_objective constF 1 initState = .error .attributeError ∧
    calculate_jacobian constF 1 initState = .error .attributeError :=
  evaluate_before_prepare_errors constF 1 initState (by decide) rfl

/-- Claim C3: on the spec's 2-component, 2-dimensional, one-data-point
record, `calculate_objectiveGMM` returns a single scalar wrapped in a
list, obtained by converting the resulting tensor to a plain nested
list (in this rational-number model every scalar is finite). -/
theorem objectiveGMM_returns_scalar_in_list (F : GMMFn) :
    ∃ c : ℚ, calculate_objectiveGMM F r0 = .ok (Val.arr [Val.num c]) :=
  ⟨F.obj r0.alpha r0.means r0.icf r0.x r0.gamma r0.m, rfl⟩

/-- Claim C4: after `calculate_jacobian(1)` on a prepared adapter the
stored gradient is the flat concatenation of the gradients with respect
to `alphas`, then `means`, then `icf`, with one entry per input element,
so its length is the total element count of the three inputs; on the
spec's concrete record, `calculate_jacobianGMM` returns a flat list of
length `2 + 4 + 4 = 10`. -/
theorem jacobian_gradient_length_and_order (F : GMMFn) (inp : GMMInput)
    (s₀ : GMMState)
    (hA : (F.gradA inp.alphas inp.means inp.icf inp.x inp.wishart.gamma
      inp.wishart.m).length = inp.alphas.numel)
    (hM : (F.gradM inp.alphas inp.means inp.icf inp.x inp.wishart.gamma
      inp.wishart.m).length = inp.means.numel)
    (hI : (F.gradI inp.alphas inp.means inp.icf inp.x inp.wishart.gamma
      inp.wishart.m).length = inp.icf.numel) :
    (calculate_jacobian F 1 (prepare inp s₀)).map
        (fun s => s.gradient.map Tensor.numpy) =
      .ok (some (F.gradA inp.alphas inp.means inp.icf inp.x
          inp.wishart.gamma inp.wishart.m
        ++ F.gradM inp.alphas inp.means inp.icf inp.x
          inp.wishart.gamma inp.wishart.m
        ++ F.gradI inp.alphas inp.means inp.icf inp.x
          inp.wishart.gamma inp.wishart.m)) ∧
    (calculate_jacobian F 1 (prepare inp s₀)).map
        (fun s => s.gradient.map (fun g => g.numpy.length)) =
      .ok (some (inp.alphas.numel + inp.means.numel + inp.icf.numel)) ∧
    calculate_jacobianGMM constF r0 =
      .ok (Val.arr (List.replicate 10 (Val.num 0))) := by
  refine ⟨?_, ?_, rfl⟩
  · show Except.ok (some ((Val.arr ((_ : List ℚ).map Val.num)).flatten)) = _
    rw [flatten_map_num]
    rfl
  · show Except.ok (some ((Val.arr ((_ : List ℚ).map Val.num)).flatten).length) = _
    rw [flatten_map_num]
    simp [to_torch_tensors, to_torch_tensor, List.length_append, hA, hM, hI]
    omega

/-- Witness for claim C4 at the spec's concrete record with the trivial
objective instantiation. -/
theorem jacobian_gradient_length_and_order_witness :
    (calculate_jacobian constF 1 (prepare (prepare_input r0) initState)).map
        (fun s => s.gradient.map Tensor.numpy) =
      .ok (some (constF.gradA (prepare_input r0).alphas (prepare_input r0).means
          (prepare_input r0).icf (prepare_input r0).x
          (prepare_input r0).wishart.gamma (prepare_input r0).wishart.m
        ++ constF.gradM (prepare_input r0).alphas (prepare_input r0).means
          (prepare_input r0).icf (prepare_input r0).x
          (prepare_input r0).wishart.gamma (prepare_input r0).wishart.m
        ++ constF.gradI (prepare_input r0).alphas (prepare_input r0).means
          (prepare_input r0).icf (prepare_input r0).x
          (prepare_input r0).wishart.gamma (prepare_input r0).wishart.m)) ∧
    (calculate_jacobian constF 1 (prepare (prepare_input r0) initState)).map
        (fun s => s.gradient.map (fun g => g.numpy.length)) =
      .ok (some ((prepare_input r0).alphas.numel + (prepare_input r0).means.numel
        + (prepare_input r0).icf.numel)) ∧
    calculate_jacobianGMM constF r0 =
      .ok (Val.arr (List.replicate 10 (Val.num 0))) :=
  jacobian_gradient_length_and_order constF (prepare_input r0) initState rfl rfl rfl

/-- Claim C5: on a prepared adapter, `calculate_objective(times)` for any
`times ≥ 1` ends in the same state as `calculate_objective(1)` (so in
particular the stored objective is the same), the external objective
function being pure. -/
theorem objective_iteration_invariant (F : GMMFn) (inp : GMMInput)
    (s₀ : GMMState) (times : Nat) (h : 1 ≤ times) :
    calculate_objective F times (prepare inp s₀) =
      calculate_objective F 1 (prepare inp s₀) := by
  obtain ⟨n, rfl⟩ : ∃ n, times = n + 1 := ⟨times - 1, by omega⟩
  rw [calc_obj_aux F (to_torch_tensors (inp.alphas, inp.means, inp.icf) true)
      (to_torch_tensors (inp.x, inp.wishart.gamma, inp.wishart.m) false) n
      (prepare inp s₀) rfl rfl,
    calc_obj_aux F (to_torch_tensors (inp.alphas, inp.means, inp.icf) true)
      (to_torch_tensors (inp.x, inp.wishart.gamma, inp.wishart.m) false) 0
      (prepare inp s₀) rfl rfl]

/-- Witness for claim C5 with two iterations on the spec's concrete
record. -/
theorem objective_iteration_invariant_witness :
    calculate_objective constF 2 (prepare (prepare_input r0) initState) =
      calculate_objective constF 1 (prepare (prepare_input r0) initState) :=
  objective_iteration_invariant constF (prepare_input r0) initState 2 (by decide)

/-- Claim C6: on a prepared adapter, `calculate_objective` with a positive
iteration count succeeds and mutates only the `objective` field: the
`gradient`, `inputs` and `params` fields are unchanged afterwards, so in
particular no gradient is computed. -/
theorem objective_mutates_only_objective (F : GMMFn) (n : Nat)
    (s : GMMState) (t p : Tensor × Tensor × Tensor)
    (hi : s.inputs = some t) (hp : s.params = some p) :
    (calculate_objective F (n + 1) s).map GMMState.gradient = .ok s.gradient ∧
    (calculate_objective F (n + 1) s).map GMMState.inputs = .ok s.inputs ∧
    (calculate_objective F (n + 1) s).map GMMState.params = .ok s.params := by
  rw [calc_obj_aux F t p n s hi hp]
  exact ⟨rfl, rfl, rfl⟩

/-- Witness for claim C6 with one iteration on the spec's concrete
record. -/
theorem objective_mutates_only_objective_witness :
    (calculate_objective constF 1 (prepare (prepare_input r0) initState)).map
        GMMState.gradient = .ok (prepare (prepare_input r0) initState).gradient ∧
    (calculate_objective constF 1 (prepare (prepare_input r0) initState)).map
        GMMState.inputs = .ok (prepare (prepare_input r0) initState).inputs ∧
    (calculate_objective constF 1 (prepare (prepare_input r0) initState)).map
        GMMState.params = .ok (prepare (prepare_input r0) initState).params :=
  objective_mutates_only_objective constF 0 (prepare (prepare_input r0) initState)
    (to_torch_tensors ((prepare_input r0).alphas, (prepare_input r0).means,
      (prepare_input r0).icf) true)
    (to_torch_tensors ((prepare_input r0).x, (prepare_input r0).wishart.gamma,
      (prepare_input r0).wishart.m) false)
    rfl rfl

/-- Claim C7: `prepare_input` constructs a `GMMInput` whose `alphas`,
`means`, `icf`, `x` fields and whose Wishart `gamma` and `m` fields
exactly equal the supplied record entries, with no transformation. -/
theorem prepare_input_preserves_fields (r : RawRecord) :
    (prepare_input r).alphas = r.alpha ∧
    (prepare_input r).means = r.means ∧
    (prepare_input r).icf = r.icf ∧
    (prepare_input r).x = r.x ∧
    (prepare_input r).wishart.gamma = r.gamma ∧
    (prepare_input r).wishart.m = r.m :=
  ⟨rfl, rfl, rfl, rfl, rfl, rfl⟩

/-- Claim C8: `prepare` converts `alphas`, `means`, `icf` into tensors
with gradient tracking enabled and `x`, `gamma`, `m` into plain
non-differentiable tensors, and sets the `objective` field to a zero
one-element tensor and the `gradient` field to an empty tensor. -/
theorem prepare_sets_fields (inp : GMMInput) (s : GMMState) :
    (prepare inp s).inputs = some ({ val := inp.alphas, grad := true },
      { val := inp.means, grad := true }, { val := inp.icf, grad := true }) ∧
    (prepare inp s).params = some ({ val := inp.x, grad := false },
      { val := inp.wishart.gamma, grad := false },
      { val := inp.wishart.m, grad := false }) ∧
    (prepare inp s).objective = some { val := Val.arr [Val.num 0], grad := false } ∧
    ({ val := Val.arr [Val.num 0], grad := false } : Tensor).item = some 0 ∧
    (prepare inp s).gradient = some { val := Val.arr [], grad := false } ∧
    ({ val := Val.arr [], grad := false } : Tensor).numpy = [] :=
  ⟨rfl, rfl, rfl, rfl, rfl, rfl⟩

/-- Claim C9: with `times = 0`, `calculate_objective` and
`calculate_jacobian` perform no evaluation and return successfully with
every field of the adapter unchanged, even on an adapter on which
`prepare` has never been called. -/
theorem times_zero_is_noop (F : GMMFn) (s : GMMState) :
    calculate_objective F 0 s = .ok s ∧ calculate_jacobian F 0 s = .ok s :=
  ⟨rfl, rfl⟩

/-- Claim C10: with the external objective routine pure, the free
functions are deterministic: two invocations on equal raw records return
equal results, each starting from a freshly constructed adapter. -/
theorem free_functions_deterministic (F : GMMFn) (r1 r2 : RawRecord)
    (h : r1 = r2) :
    calculate_objectiveGMM F r1 = calculate_objectiveGMM F r2 ∧
    calculate_jacobianGMM F r1 = calculate_jacobianGMM F r2 := by
  subst h
  exact ⟨rfl, rfl⟩

/-- Witness for claim C10 at the spec's concrete record. -/
theorem free_functions_deterministic_witness :
    calculate_objectiveGMM constF r0 = calculate_objectiveGMM constF r0 ∧
    calculate_jacobianGMM constF r0 = calculate_jacobianGMM constF r0 :=
  free_functions_deterministic constF r0 r0 rfl
